import Mathlib

/-!
Verification of the lal cluster-dispatch demo
(`app/demo/dispatch/dispatch.go`): the stream-location directory and the
cascade-dispatch protocol.

The Go program keeps a global map `stream2ServerID : map[string]string`
(the Directory: stream name to owning server id), a static config map
`serverID2Server : map[string]Server` (the Node Registry), and four HTTP
handlers `OnPubStartHandler`, `OnPubStopHandler`, `OnSubStartHandler`,
`OnSubStopHandler`.  Each handler is embedded here as a pure function over
an explicit directory state; the registry is passed as a parameter.  Go
maps are embedded as association lists with first-match lookup, erase and
overwrite-insert, which reproduces Go's lookup/assign/delete semantics.
`OnSubStartHandler` additionally acquires a mutex (released by `defer` at
function return) and may perform an outbound HTTP POST; its locking and
network behaviour is embedded as a trace of abstract actions in source
order.
-/

namespace LalDispatch

/-- Embeds the Go `Server` struct: per-node data-plane (rtmp) address and
control-plane (api) address. -/
structure Server where
  rtmpAddr : String
  apiAddr : String
deriving DecidableEq, Repr

/-- The Directory: the global Go map `stream2ServerID`, stream name to
owning server id, as an association list. -/
abbrev Directory := List (String × String)

/-- The Node Registry: the Go config map `serverID2Server`. -/
abbrev Registry := List (String × Server)

/-- Go map lookup `v, ok := m[k]` on the directory: first matching key. -/
def dirLookup : Directory → String → Option String
  | [], _ => none
  | (k, v) :: rest, key => if k = key then some v else dirLookup rest key

/-- Go `delete(m, k)` on the directory: removes every binding of `k`. -/
def dirErase : Directory → String → Directory
  | [], _ => []
  | (k, v) :: rest, key =>
    if k = key then dirErase rest key else (k, v) :: dirErase rest key

/-- Go map assignment `m[k] = v` on the directory: overwrites any prior
binding of `k`. -/
def dirPut (d : Directory) (key v : String) : Directory :=
  (key, v) :: dirErase d key

/-- Go map lookup on the registry. -/
def regLookup : Registry → String → Option Server
  | [], _ => none
  | (k, v) :: rest, key => if k = key then some v else regLookup rest key

/-- The CascadeMarker: the Go config constant `pullSecretParam`. -/
def pullSecretParam : String := "lal_cluster_inner_pull=1"

/-- The demo's static registry config, the Go `serverID2Server` literal. -/
def serverID2Server : Registry :=
  [("1", { rtmpAddr := "127.0.0.1:19350", apiAddr := "127.0.0.1:8083" }),
   ("2", { rtmpAddr := "127.0.0.1:19550", apiAddr := "127.0.0.1:8283" })]

/-- Does `pat` occur at the head of `s`?  Helper for `strContains`. -/
def hasPre : List Char → List Char → Bool
  | [], _ => true
  | _ :: _, [] => false
  | p :: ps, c :: cs => decide (p = c) && hasPre ps cs

/-- Does `pat` occur as a contiguous sublist of `s`? -/
def containsSub : List Char → List Char → Bool
  | s, pat =>
    hasPre pat s ||
      match s with
      | [] => false
      | _ :: cs => containsSub cs pat

/-- Embeds Go `strings.Contains s pat`: substring containment. -/
def strContains (s pat : String) : Bool :=
  containsSub s.data pat.data

/-- Embeds the fields of `base.PubStartInfo` the dispatcher reads. -/
structure PubStartInfo where
  serverID : String
  streamName : String
deriving DecidableEq, Repr

/-- Embeds the fields of `base.PubStopInfo` the dispatcher reads. -/
structure PubStopInfo where
  serverID : String
  streamName : String
deriving DecidableEq, Repr

/-- Embeds the fields of `base.SubStartInfo` the dispatcher reads. -/
structure SubStartInfo where
  appName : String
  streamName : String
  urlParam : String
  hasInSession : Bool
  serverID : String
deriving DecidableEq, Repr

/-- Embeds the fields of `base.SubStopInfo` the dispatcher reads (it reads
none; the handler only logs). -/
structure SubStopInfo where
  serverID : String
  streamName : String
deriving DecidableEq, Repr

/-- Stands for the external constant `base.ProtocolRTMP`; its value is
opaque to the dispatcher. -/
def protocolRtmp : String := "rtmp"

/-- Embeds `base.APICtrlStartPullReq`, the outbound cascade-pull command
body built by `OnSubStartHandler`. -/
structure APICtrlStartPullReq where
  protocol : String
  addr : String
  appName : String
  streamName : String
  urlParam : String
deriving DecidableEq, Repr

/-- Embeds `OnPubStartHandler` (after JSON parsing): under the mutex,
`stream2ServerID[info.StreamName] = info.ServerID`. -/
def onPubStart (dir : Directory) (info : PubStartInfo) : Directory :=
  dirPut dir info.streamName info.serverID

/-- Embeds `OnPubStopHandler` (after JSON parsing): under the mutex,
`serverID, exist := stream2ServerID[info.StreamName]`; if `!exist ||
serverID != info.ServerID` return; else `delete(stream2ServerID,
serverID)`.  Note the Go code deletes the key `serverID` (the looked-up
owner id), not `info.StreamName`. -/
def onPubStop (dir : Directory) (info : PubStopInfo) : Directory :=
  match dirLookup dir info.streamName with
  | none => dir
  | some serverID =>
    if serverID = info.serverID then dirErase dir serverID else dir

/-- Abstract observable actions of `OnSubStartHandler`: taking and
releasing the global mutex, and the outbound `PostJson` control call
(target control-plane address and request body). -/
inductive Action where
  | lockAcquire : Action
  | lockRelease : Action
  | netCall (target : String) (req : APICtrlStartPullReq) : Action
deriving DecidableEq, Repr

/-- Embeds `OnSubStartHandler` (after JSON parsing) as the final directory
plus the trace of actions in source order.  The Go handler: returns early
on the CascadeMarker check and the `HasInSession` check; then
`mutex.Lock(); defer mutex.Unlock()` (so the release happens at function
return, after everything else); then three guarded lookups with early
returns; then builds the `APICtrlStartPullReq` and performs the blocking
`PostJson` call before returning.  The handler never writes
`stream2ServerID`, so the directory component is the input directory on
every path. -/
def onSubStart (reg : Registry) (dir : Directory) (info : SubStartInfo) :
    Directory × List Action :=
  if strContains info.urlParam pullSecretParam then
    (dir, [])
  else if info.hasInSession then
    (dir, [])
  else
    match regLookup reg info.serverID with
    | none => (dir, [Action.lockAcquire, Action.lockRelease])
    | some reqServer =>
      match dirLookup dir info.streamName with
      | none => (dir, [Action.lockAcquire, Action.lockRelease])
      | some pubServerID =>
        match regLookup reg pubServerID with
        | none => (dir, [Action.lockAcquire, Action.lockRelease])
        | some pubServer =>
          (dir,
           [Action.lockAcquire,
            Action.netCall reqServer.apiAddr
              { protocol := protocolRtmp
                addr := pubServer.rtmpAddr
                appName := info.appName
                streamName := info.streamName
                urlParam := pullSecretParam },
            Action.lockRelease])

/-- Embeds `OnSubStopHandler` (after JSON parsing): the handler only logs
("没什么好做的") and leaves the directory untouched. -/
def onSubStop (dir : Directory) (_info : SubStopInfo) : Directory :=
  dir

/-- The outbound dispatches contained in an action trace. -/
def dispatches : List Action → List (String × APICtrlStartPullReq)
  | [] => []
  | Action.netCall t r :: rest => (t, r) :: dispatches rest
  | Action.lockAcquire :: rest => dispatches rest
  | Action.lockRelease :: rest => dispatches rest

/-- Walks a trace tracking whether the mutex is held; `true` iff some
network call occurs while the mutex is held. -/
def callsWhileHeld : List Action → Bool → Bool
  | [], _ => false
  | Action.lockAcquire :: rest, _ => callsWhileHeld rest true
  | Action.lockRelease :: rest, _ => callsWhileHeld rest false
  | Action.netCall _ _ :: rest, held => held || callsWhileHeld rest held

/-- Directory events, for stating temporal properties over event
sequences. -/
inductive DirEvent where
  | pubStart (streamName serverID : String) : DirEvent
  | pubStop (streamName serverID : String) : DirEvent
deriving DecidableEq, Repr

/-- Applies one publish-lifecycle event to the directory via the
corresponding handler. -/
def applyDirEvent (dir : Directory) : DirEvent → Directory
  | DirEvent.pubStart k n => onPubStart dir { serverID := n, streamName := k }
  | DirEvent.pubStop k n => onPubStop dir { serverID := n, streamName := k }

end LalDispatch

namespace LalDispatch

/-- Concrete inputs used to exercise the dispatcher on the demo config:
a subscribe for stream `match1` from node `2`, no marker, no local input
session. -/
def subInfo2 : SubStartInfo :=
  { appName := "live", streamName := "match1", urlParam := "",
    hasInSession := false, serverID := "2" }

/-- The cascade-pull request body the dispatcher builds for `subInfo2`
against the directory entry `match1 ↦ 1`. -/
def pullReq1 : APICtrlStartPullReq :=
  { protocol := protocolRtmp, addr := "127.0.0.1:19350", appName := "live",
    streamName := "match1", urlParam := pullSecretParam }

/-- C1. The claim says a `PublishStop` whose NodeID matches the current
owner removes the directory entry for the event's StreamKey, so a
subsequent lookup returns not-found.  The code instead executes
`delete(stream2ServerID, serverID)` — keyed by the owner id, not by
`info.StreamName` — so on directory `{match1 ↦ A}` the matching stop
`{key=match1, node=A}` deletes the (absent) key `A` and the entry for
`match1` survives: the lookup still returns `A`. -/
theorem onPubStop_matching_owner_keeps_entry :
    dirLookup (onPubStop [("match1", "A")] { serverID := "A", streamName := "match1" }) "match1"
      = some "A" := by
  decide

/-- C3. The claim says that after `PublishStart(n)` for a key, lookup of
that key returns `n` until a matching stop or a later start for the same
key.  Because `OnPubStopHandler` deletes by owner id, a stop for a
DIFFERENT stream `s` owned by node `A` removes the entry for stream `A`:
after `PublishStart{key=A, node=X}`, `PublishStart{key=s, node=A}`,
`PublishStop{key=s, node=A}` — no stop or start for key `A` at all —
lookup of `A` returns not-found instead of `X`. -/
theorem lookup_after_unrelated_stop_cex :
    dirLookup
      ([DirEvent.pubStart "s" "A", DirEvent.pubStop "s" "A"].foldl applyDirEvent
        (applyDirEvent [] (DirEvent.pubStart "A" "X"))) "A" = none := by
  decide

/-- C4. A `PublishStop` whose StreamKey is absent, or whose reported
NodeID differs from the key's current owner, leaves the directory
unchanged: the handler returns before the delete. -/
theorem onPubStop_no_match_noop (dir : Directory) (info : PubStopInfo)
    (h : dirLookup dir info.streamName ≠ some info.serverID) :
    onPubStop dir info = dir := by
  unfold onPubStop
  cases hl : dirLookup dir info.streamName with
  | none => rfl
  | some m =>
    have hm : ¬ m = info.serverID := fun he => h (he ▸ hl)
    simp [hm]

/-- Witness for C4 at a concrete input: owner is `A`, the stop reports
`B`, the directory is unchanged. -/
theorem onPubStop_no_match_noop_witness :
    dirLookup [("match1", "A")] "match1" ≠ some "B" ∧
      onPubStop [("match1", "A")] { serverID := "B", streamName := "match1" }
        = [("match1", "A")] :=
  ⟨by decide,
   onPubStop_no_match_noop [("match1", "A")] { serverID := "B", streamName := "match1" }
     (by decide)⟩

/-- C6. `PublishStart` sets the directory entry for the event's StreamKey
to the event's NodeID unconditionally: whatever the prior directory state
(including a different prior owner), the lookup afterwards returns the
event's NodeID. -/
theorem onPubStart_sets_owner (dir : Directory) (info : PubStartInfo) :
    dirLookup (onPubStart dir info) info.streamName = some info.serverID := by
  simp [onPubStart, dirPut, dirLookup]

/-- C7. A `SubscribeStart` whose raw parameter string contains the
CascadeMarker produces no outbound dispatch: the handler returns before
any lookup or call. -/
theorem onSubStart_marker_no_dispatch (reg : Registry) (dir : Directory)
    (info : SubStartInfo)
    (h : strContains info.urlParam pullSecretParam = true) :
    dispatches (onSubStart reg dir info).2 = [] := by
  simp [onSubStart, h, dispatches]

/-- Witness for C7: a parameter string carrying the marker, against a
directory that does hold the key, yields no dispatch. -/
theorem onSubStart_marker_no_dispatch_witness :
    strContains "a=1&lal_cluster_inner_pull=1" pullSecretParam = true ∧
      dispatches
        (onSubStart serverID2Server [("match1", "1")]
          { appName := "live", streamName := "match1",
            urlParam := "a=1&lal_cluster_inner_pull=1",
            hasInSession := false, serverID := "2" }).2 = [] :=
  ⟨by decide,
   onSubStart_marker_no_dispatch serverID2Server [("match1", "1")]
     { appName := "live", streamName := "match1",
       urlParam := "a=1&lal_cluster_inner_pull=1",
       hasInSession := false, serverID := "2" }
     (by decide)⟩

/-- C8. A `SubscribeStart` reporting an existing local input session, or
whose StreamKey has no current owner in the directory, produces no
outbound dispatch. -/
theorem onSubStart_insession_or_noowner_no_dispatch (reg : Registry)
    (dir : Directory) (info : SubStartInfo)
    (h : info.hasInSession = true ∨ dirLookup dir info.streamName = none) :
    dispatches (onSubStart reg dir info).2 = [] := by
  unfold onSubStart
  split
  · simp [dispatches]
  · split
    · simp [dispatches]
    · rename_i hmarker hsess
      rcases h with h | h
      · exact absurd h (by simpa using hsess)
      · cases hr : regLookup reg info.serverID <;> simp [hr, h, dispatches]

/-- Witness for C8: a subscribe with `HasInSession = true` against a
directory holding the key yields no dispatch. -/
theorem onSubStart_insession_no_dispatch_witness :
    (({ appName := "live", streamName := "match1", urlParam := "",
        hasInSession := true, serverID := "2" } : SubStartInfo).hasInSession = true ∨
      dirLookup [("match1", "1")] "match1" = none) ∧
      dispatches
        (onSubStart serverID2Server [("match1", "1")]
          { appName := "live", streamName := "match1", urlParam := "",
            hasInSession := true, serverID := "2" }).2 = [] :=
  ⟨Or.inl rfl,
   onSubStart_insession_or_noowner_no_dispatch serverID2Server [("match1", "1")]
     { appName := "live", streamName := "match1", urlParam := "",
       hasInSession := true, serverID := "2" }
     (Or.inl rfl)⟩

/-- C9. Neither `SubscribeStart` nor `SubscribeStop` handling mutates the
directory: the directory after handling equals the directory before. -/
theorem onSub_handlers_preserve_directory (reg : Registry) (dir : Directory)
    (info : SubStartInfo) (info2 : SubStopInfo) :
    (onSubStart reg dir info).1 = dir ∧ onSubStop dir info2 = dir := by
  refine ⟨?_, rfl⟩
  unfold onSubStart
  repeat' split
  all_goals rfl

end LalDispatch

namespace LalDispatch

/-- Concrete subscribe from node `1` itself (the owner of `match1` in the
test directory below), no marker, no local input session. -/
def subInfo1 : SubStartInfo :=
  { appName := "live", streamName := "match1", urlParam := "",
    hasInSession := false, serverID := "1" }

/-- C5. Whenever handling a `SubscribeStart` produces an outbound
cascade-pull command, the command's source address is the registry's
data-plane (rtmp) address of the stream's current owner, its application
and stream names are those of the inbound event verbatim, and its
parameter string is exactly the CascadeMarker. -/
theorem onSubStart_dispatch_fields (reg : Registry) (dir : Directory)
    (info : SubStartInfo) (owner : String) (pubServer : Server)
    (tgt : String) (req : APICtrlStartPullReq)
    (hown : dirLookup dir info.streamName = some owner)
    (hreg : regLookup reg owner = some pubServer)
    (hmem : (tgt, req) ∈ dispatches (onSubStart reg dir info).2) :
    req.addr = pubServer.rtmpAddr ∧ req.appName = info.appName ∧
      req.streamName = info.streamName ∧ req.urlParam = pullSecretParam := by
  unfold onSubStart at hmem
  split at hmem
  · simp [dispatches] at hmem
  · split at hmem
    · simp [dispatches] at hmem
    · cases hr : regLookup reg info.serverID with
      | none => simp only [hr, dispatches] at hmem; simp at hmem
      | some reqServer =>
        simp only [hr, hown, hreg, dispatches] at hmem
        simp only [List.mem_singleton, Prod.mk.injEq] at hmem
        obtain ⟨-, hreq⟩ := hmem
        subst hreq
        exact ⟨rfl, rfl, rfl, rfl⟩

/-- Witness for C5: node `2` subscribes to `match1` owned by node `1`;
the dispatched command pulls from node `1`'s rtmp address with the
event's app/stream names and the marker. -/
theorem onSubStart_dispatch_fields_witness :
    dirLookup [("match1", "1")] "match1" = some "1" ∧
      regLookup serverID2Server "1"
        = some { rtmpAddr := "127.0.0.1:19350", apiAddr := "127.0.0.1:8083" } ∧
      ("127.0.0.1:8283", pullReq1)
        ∈ dispatches (onSubStart serverID2Server [("match1", "1")] subInfo2).2 ∧
      (pullReq1.addr = "127.0.0.1:19350" ∧ pullReq1.appName = "live" ∧
        pullReq1.streamName = "match1" ∧ pullReq1.urlParam = pullSecretParam) :=
  ⟨by decide, by decide, by decide,
   onSubStart_dispatch_fields serverID2Server [("match1", "1")] subInfo2 "1"
     { rtmpAddr := "127.0.0.1:19350", apiAddr := "127.0.0.1:8083" }
     "127.0.0.1:8283" pullReq1 (by decide) (by decide) (by decide)⟩

/-- C10. When the requesting node IS the current owner of the stream (and
the marker is absent, no local input session is reported, and the node is
in the registry), the dispatcher still issues a cascade-pull command to
that node, telling it to pull from its own data-plane address: no guard
compares the requester to the owner. -/
theorem onSubStart_self_pull (reg : Registry) (dir : Directory)
    (info : SubStartInfo) (srv : Server)
    (hmark : strContains info.urlParam pullSecretParam = false)
    (hsess : info.hasInSession = false)
    (hown : dirLookup dir info.streamName = some info.serverID)
    (hreg : regLookup reg info.serverID = some srv) :
    dispatches (onSubStart reg dir info).2 =
      [(srv.apiAddr,
        { protocol := protocolRtmp, addr := srv.rtmpAddr,
          appName := info.appName, streamName := info.streamName,
          urlParam := pullSecretParam })] := by
  unfold onSubStart
  simp [hmark, hsess, hreg, hown, dispatches]

/-- Witness for C10: node `1` owns `match1` and subscribes to it; the
dispatcher sends node `1` a command to pull `match1` from node `1`'s own
rtmp address. -/
theorem onSubStart_self_pull_witness :
    strContains "" pullSecretParam = false ∧
      dirLookup [("match1", "1")] "match1" = some "1" ∧
      regLookup serverID2Server "1"
        = some { rtmpAddr := "127.0.0.1:19350", apiAddr := "127.0.0.1:8083" } ∧
      dispatches (onSubStart serverID2Server [("match1", "1")] subInfo1).2 =
        [("127.0.0.1:8083", pullReq1)] :=
  ⟨by decide, by decide, by decide,
   onSubStart_self_pull serverID2Server [("match1", "1")] subInfo1
     { rtmpAddr := "127.0.0.1:19350", apiAddr := "127.0.0.1:8083" }
     (by decide) (by decide) (by decide) (by decide)⟩

/-- C2 counterexample. The claim says the lock is released before the
outbound network call on every dispatching path.  In the code the unlock
is a `defer`, so it runs at handler return, AFTER `PostJson`: on the demo
config with directory `{match1 ↦ 1}` and a subscribe from node `2`, the
trace performs the network call while the mutex is held. -/
theorem onSubStart_netCall_while_locked_cex :
    callsWhileHeld (onSubStart serverID2Server [("match1", "1")] subInfo2).2 false
      = true := by
  decide

/-- C2 amended. Whenever `OnSubStartHandler` reaches the dispatch step
(its trace contains a network call), that call is performed while holding
the directory lock; the lock is released only afterwards, at handler
return. -/
theorem onSubStart_netCall_under_lock (reg : Registry) (dir : Directory)
    (info : SubStartInfo) (tgt : String) (req : APICtrlStartPullReq)
    (hmem : Action.netCall tgt req ∈ (onSubStart reg dir info).2) :
    callsWhileHeld (onSubStart reg dir info).2 false = true := by
  by_cases h1 : strContains info.urlParam pullSecretParam = true
  · simp [onSubStart, h1] at hmem
  · by_cases h2 : info.hasInSession = true
    · simp [onSubStart, h1, h2] at hmem
    · cases hr : regLookup reg info.serverID with
      | none => simp [onSubStart, h1, h2, hr] at hmem
      | some reqServer =>
        cases hd : dirLookup dir info.streamName with
        | none => simp [onSubStart, h1, h2, hr, hd] at hmem
        | some pubID =>
          cases hp : regLookup reg pubID with
          | none => simp [onSubStart, h1, h2, hr, hd, hp] at hmem
          | some pubServer =>
            simp [onSubStart, h1, h2, hr, hd, hp, callsWhileHeld]

/-- Witness for the amended C2: the dispatching trace of the concrete
subscribe contains the network call, and the call happens under the
lock. -/
theorem onSubStart_netCall_under_lock_witness :
    Action.netCall "127.0.0.1:8283" pullReq1
        ∈ (onSubStart serverID2Server [("match1", "1")] subInfo2).2 ∧
      callsWhileHeld (onSubStart serverID2Server [("match1", "1")] subInfo2).2 false
        = true :=
  ⟨by decide,
   onSubStart_netCall_under_lock serverID2Server [("match1", "1")] subInfo2
     "127.0.0.1:8283" pullReq1 (by decide)⟩

end LalDispatch
